import Mathlib

/-!
Verification development for the Instagram content-pipeline orchestrator
(`app.py`): a shallow embedding of its cache layer, retry wrapper, and the
four generation steps (`fetch_subtopics`, `choose_subtopic`,
`generate_caption`, `generate_image_prompt`), together with theorems about
the properties the specification states.

Python text is embedded as `List Char`.  Library calls used by the source
are modelled at their documented behaviour: `re.findall` / `re.search` for
the two concrete patterns that occur in the source (including the
behaviour of `\s*` crossing newlines under `re.MULTILINE`), `json.loads`
(strict mode, via a fuel-indexed recursive-descent parser; `\uXXXX`
escapes are decoded codepoint-wise, surrogate pairs are not combined),
`str.strip` / `str.splitlines` (over the standard whitespace and
line-break character sets; exotic Unicode category-Zs codepoints are
covered by the listed ranges), `tenacity.retry` with
`stop_after_attempt(3)` and `wait_exponential(multiplier=1, min=2,
max=10)`, and `cachetools.TTLCache` as an association list (the claims
quantify within the TTL window and below capacity, so expiry and eviction
do not act).
-/

/-- Python text: a string as a list of characters. -/
abbrev PyStr := List Char

/-- The single-quote character, used by the source's f-string prompts and
by Python `repr` of strings. -/
def sqc : Char := Char.ofNat 39

/-- Python whitespace (`str.isspace`, and `\s` of `re` on `str`):
what CPython's `Py_UNICODE_ISSPACE` accepts. -/
def pySpace (c : Char) : Bool :=
  c == ' ' || c == '\t' || c == '\n' || c == '\r' || c == '\x0b' || c == '\x0c' ||
  c == '\x1c' || c == '\x1d' || c == '\x1e' || c == '\x1f' || c == '\x85' ||
  c == '\xa0' || c.toNat == 0x1680 ||
  (0x2000 ≤ c.toNat && c.toNat ≤ 0x200a) ||
  c.toNat == 0x2028 || c.toNat == 0x2029 || c.toNat == 0x202f ||
  c.toNat == 0x205f || c.toNat == 0x3000

/-- Line-break characters recognised by Python `str.splitlines`. -/
def pyLineBreak (c : Char) : Bool :=
  c == '\n' || c == '\r' || c == '\x0b' || c == '\x0c' ||
  c == '\x1c' || c == '\x1d' || c == '\x1e' || c == '\x85' ||
  c.toNat == 0x2028 || c.toNat == 0x2029

/-- Python `str.strip()`: remove whitespace from both ends. -/
def pyStrip (s : PyStr) : PyStr :=
  ((s.dropWhile pySpace).reverse.dropWhile pySpace).reverse

/-- Python `str.splitlines()`: split at line breaks (`\r\n` counts once),
with no trailing empty line. -/
def pySplitlines : PyStr → List PyStr
  | [] => []
  | '\r' :: '\n' :: cs => [] :: pySplitlines cs
  | c :: cs =>
    if pyLineBreak c then [] :: pySplitlines cs
    else
      match pySplitlines cs with
      | [] => [[c]]
      | l :: ls => (c :: l) :: ls

/-- Split at `'\n'` keeping every segment (the line starts/ends at which
`re.MULTILINE` anchors `^` and `$` match). -/
def splitOnNl : PyStr → List PyStr
  | [] => [[]]
  | c :: cs =>
    if c = '\n' then [] :: splitOnNl cs
    else
      match splitOnNl cs with
      | [] => [[c]]
      | l :: ls => (c :: l) :: ls

/-- The list-marker part of the source's pattern
`^\s*(?:\d+[\.)]|[-•])\s*(.+)$` applied to one line:
skip leading whitespace, consume a numeric (`\d+[\.)]`) or bullet
(`[-•]`) marker, and return the rest of the line; `none` if the line does
not start (after whitespace) with such a marker. -/
def stripMarker (ℓ : PyStr) : Option PyStr :=
  match ℓ.dropWhile pySpace with
  | '-' :: rest => some rest
  | '•' :: rest => some rest
  | c :: rest =>
    if c.isDigit then
      match (c :: rest).dropWhile Char.isDigit with
      | '.' :: rest2 => some rest2
      | ')' :: rest2 => some rest2
      | _ => none
    else none
  | [] => none

/-- Scanner state for `re.findall` over the lines of the text: either
looking for a fresh match (`scan`), or inside the whitespace run
`\s*` that follows a matched marker and has crossed a newline
(`afterMarker lastWs` remembers the last non-`'\n'` whitespace character
of the run so far, which becomes the one-character group if the run
reaches the end of the input). -/
inductive ScanMode where
  | scan : ScanMode
  | afterMarker : Option Char → ScanMode

/-- Faithful model of
`re.findall(r'^\s*(?:\d+[\.)]|[-•])\s*(.+)$', text, flags=re.MULTILINE)`
over the `'\n'`-split lines of `text`.  In `scan` mode a marker line whose
remainder has a non-whitespace character yields that remainder (from the
first non-whitespace character to the end of the line) as a group; a
marker line with only whitespace after the marker lets `\s*` cross the
newline (`afterMarker`).  In `afterMarker` mode the first line with a
non-whitespace character yields its stripped-left remainder as the group;
if the input ends inside the run, the group is the last non-`'\n'`
whitespace character of the run, if any (greedy backtracking of `\s*`
against `(.+)$`). -/
def scanLines : List PyStr → ScanMode → List PyStr
  | [], .scan => []
  | [], .afterMarker none => []
  | [], .afterMarker (some c) => [[c]]
  | ℓ :: rest, .scan =>
    match stripMarker ℓ with
    | none => scanLines rest .scan
    | some s =>
      if (s.dropWhile pySpace).isEmpty then
        scanLines rest (.afterMarker s.getLast?)
      else
        s.dropWhile pySpace :: scanLines rest .scan
  | ℓ :: rest, .afterMarker lw =>
    if (ℓ.dropWhile pySpace).isEmpty then
      scanLines rest (.afterMarker (match ℓ.getLast? with | some c => some c | none => lw))
    else
      ℓ.dropWhile pySpace :: scanLines rest .scan

/-- All groups found by the source's bullet-list regex over `text`. -/
def findallBullets (text : PyStr) : List PyStr :=
  scanLines (splitOnNl text) .scan

/-- A line that on its own carries a well-formed bullet item: a marker
followed (possibly after whitespace) by a non-whitespace character. -/
def wellFormedBullet (ℓ : PyStr) : Bool :=
  match stripMarker ℓ with
  | some s => !(s.dropWhile pySpace).isEmpty
  | none => false

/-- The parsing stage of `fetch_subtopics`: the regex groups, or, when
there are none, every line whose stripped form is longer than 5
characters (stripped). -/
def parseSubtopics (text : PyStr) : List PyStr :=
  let items := findallBullets text
  if items.isEmpty then
    ((pySplitlines text).map pyStrip).filter (fun l => 5 < l.length)
  else items

/-! ## Model of `json.loads` (strict mode, as used by the source) -/

/-- JSON values as produced by `json.loads`.  Number literals keep their
source token (the source never computes with numeric values). -/
inductive Json where
  | null : Json
  | jbool : Bool → Json
  | jnum : PyStr → Json
  | jstr : PyStr → Json
  | jarr : List Json → Json
  | jobj : List (PyStr × Json) → Json

/-- JSON inter-token whitespace (only these four, per the JSON grammar). -/
def jsonWs (c : Char) : Bool :=
  c == ' ' || c == '\t' || c == '\n' || c == '\r'

/-- Skip JSON whitespace. -/
def skipWs (cs : PyStr) : PyStr := cs.dropWhile jsonWs

/-- Consume an exact literal; `none` if the input does not start with it. -/
def dropLiteral : PyStr → PyStr → Option PyStr
  | [], cs => some cs
  | _ :: _, [] => none
  | l :: ls, c :: cs => if c = l then dropLiteral ls cs else none

/-- Value of a hexadecimal digit. -/
def hexDigit (c : Char) : Option Nat :=
  if c.isDigit then some (c.toNat - 48)
  else if 97 ≤ c.toNat && c.toNat ≤ 102 then some (c.toNat - 87)
  else if 65 ≤ c.toNat && c.toNat ≤ 70 then some (c.toNat - 55)
  else none

/-- Single-character JSON string escapes. -/
def unescape (c : Char) : Option Char :=
  if c = '"' then some '"'
  else if c = '\\' then some '\\'
  else if c = '/' then some '/'
  else if c = 'b' then some '\x08'
  else if c = 'f' then some '\x0c'
  else if c = 'n' then some '\n'
  else if c = 'r' then some '\r'
  else if c = 't' then some '\t'
  else none

/-- Parse the body of a JSON string (after the opening quote), strict
mode: raw control characters are rejected.  Returns the decoded content
and the input after the closing quote. -/
def parseJStr : Nat → PyStr → Option (PyStr × PyStr)
  | 0, _ => none
  | _ + 1, [] => none
  | fuel + 1, c :: cs =>
    if c = '"' then some ([], cs)
    else if c = '\\' then
      match cs with
      | 'u' :: h1 :: h2 :: h3 :: h4 :: cs2 =>
        match hexDigit h1, hexDigit h2, hexDigit h3, hexDigit h4 with
        | some a, some b, some d, some e =>
          match parseJStr fuel cs2 with
          | some (s, rest) => some (Char.ofNat (((a * 16 + b) * 16 + d) * 16 + e) :: s, rest)
          | none => none
        | _, _, _, _ => none
      | e :: cs2 =>
        match unescape e with
        | some ch =>
          match parseJStr fuel cs2 with
          | some (s, rest) => some (ch :: s, rest)
          | none => none
        | none => none
      | [] => none
    else if c.toNat < 32 then none
    else
      match parseJStr fuel cs with
      | some (s, rest) => some (c :: s, rest)
      | none => none

/-- Leading decimal digits and the remainder. -/
def digitSpan (cs : PyStr) : PyStr × PyStr :=
  (cs.takeWhile Char.isDigit, cs.dropWhile Char.isDigit)

/-- Optional fraction part `\.[0-9]+` of a JSON number token. -/
def parseFrac (cs : PyStr) : PyStr × PyStr :=
  match cs with
  | '.' :: r =>
    match digitSpan r with
    | ([], _) => ([], cs)
    | (ds, r2) => ('.' :: ds, r2)
  | _ => ([], cs)

/-- Optional exponent part `[eE][+-]?[0-9]+` of a JSON number token. -/
def parseExp (cs : PyStr) : PyStr × PyStr :=
  match cs with
  | c :: r =>
    if c = 'e' || c = 'E' then
      match r with
      | s :: r2 =>
        if s = '+' || s = '-' then
          match digitSpan r2 with
          | ([], _) => ([], cs)
          | (ds, r3) => (c :: s :: ds, r3)
        else
          match digitSpan r with
          | ([], _) => ([], cs)
          | (ds, r3) => (c :: ds, r3)
      | [] => ([], cs)
    else ([], cs)
  | [] => ([], cs)

/-- JSON number token `-?(0|[1-9][0-9]*)(\.[0-9]+)?([eE][+-]?[0-9]+)?`,
returned verbatim together with the remainder. -/
def parseNumTok (cs : PyStr) : Option (PyStr × PyStr) :=
  let (neg, cs1) : PyStr × PyStr :=
    match cs with
    | '-' :: r => (['-'], r)
    | _ => ([], cs)
  match cs1 with
  | '0' :: r =>
    let (f, r2) := parseFrac r
    let (e, r3) := parseExp r2
    some (neg ++ '0' :: f ++ e, r3)
  | c :: _ =>
    if c.isDigit then
      let (ds, r1) := digitSpan cs1
      let (f, r2) := parseFrac r1
      let (e, r3) := parseExp r2
      some (neg ++ ds ++ f ++ e, r3)
    else none
  | [] => none

mutual

/-- Recursive-descent JSON value parser (fuel-indexed; the top-level call
supplies more fuel than the input length, and every recursive call first
consumes at least one character, so fuel never runs out on real input). -/
def parseValue : Nat → PyStr → Option (Json × PyStr)
  | 0, _ => none
  | fuel + 1, cs =>
    match cs with
    | [] => none
    | '{' :: r =>
      match skipWs r with
      | '}' :: rest => some (Json.jobj [], rest)
      | r2 => parseObjMembers fuel r2 []
    | '[' :: r =>
      match skipWs r with
      | ']' :: rest => some (Json.jarr [], rest)
      | r2 => parseArrItems fuel r2 []
    | '"' :: r =>
      match parseJStr (fuel + 1) r with
      | some (s, rest) => some (Json.jstr s, rest)
      | none => none
    | 't' :: r => (dropLiteral "rue".toList r).map (fun rest => (Json.jbool true, rest))
    | 'f' :: r => (dropLiteral "alse".toList r).map (fun rest => (Json.jbool false, rest))
    | 'n' :: r => (dropLiteral "ull".toList r).map (fun rest => (Json.null, rest))
    | 'N' :: r => (dropLiteral "aN".toList r).map (fun rest => (Json.jnum "NaN".toList, rest))
    | 'I' :: r =>
      (dropLiteral "nfinity".toList r).map (fun rest => (Json.jnum "Infinity".toList, rest))
    | '-' :: 'I' :: r =>
      (dropLiteral "nfinity".toList r).map (fun rest => (Json.jnum "-Infinity".toList, rest))
    | _ =>
      match parseNumTok cs with
      | some (tok, rest) => some (Json.jnum tok, rest)
      | none => none

/-- Members of a JSON object after `{` (whitespace already skipped),
accumulating parsed pairs in reverse. -/
def parseObjMembers : Nat → PyStr → List (PyStr × Json) → Option (Json × PyStr)
  | 0, _, _ => none
  | fuel + 1, cs, acc =>
    match cs with
    | '"' :: r =>
      match parseJStr (fuel + 1) r with
      | some (k, rest1) =>
        match skipWs rest1 with
        | ':' :: rest2 =>
          match parseValue fuel (skipWs rest2) with
          | some (v, rest3) =>
            match skipWs rest3 with
            | ',' :: rest4 => parseObjMembers fuel (skipWs rest4) ((k, v) :: acc)
            | '}' :: rest4 => some (Json.jobj ((k, v) :: acc).reverse, rest4)
            | _ => none
          | none => none
        | _ => none
      | none => none
    | _ => none

/-- Items of a JSON array after `[` (whitespace already skipped),
accumulating parsed items in reverse. -/
def parseArrItems : Nat → PyStr → List Json → Option (Json × PyStr)
  | 0, _, _ => none
  | fuel + 1, cs, acc =>
    match parseValue fuel cs with
    | some (v, rest) =>
      match skipWs rest with
      | ',' :: r2 => parseArrItems fuel (skipWs r2) (v :: acc)
      | ']' :: r2 => some (Json.jarr (v :: acc).reverse, r2)
      | _ => none
    | none => none

end

/-- Model of `json.loads`: parse one JSON document, allowing surrounding
whitespace, rejecting trailing data; `none` models a raised
`JSONDecodeError`. -/
def pyJsonLoads (raw : PyStr) : Option Json :=
  match parseValue (raw.length + 1) (skipWs raw) with
  | some (v, rest) => if (skipWs rest).isEmpty then some v else none
  | none => none

/-- Python `dict` lookup on a parsed object: with duplicate keys the last
occurrence wins (as in CPython's `json`). -/
def jobjGet (kvs : List (PyStr × Json)) (k : PyStr) : Option Json :=
  ((kvs.filter (fun e => e.1 == k)).getLast?).map (fun e => e.2)

/-! ## Model of `re.search(r'Choice\s*:\s*(.+)', raw)` -/

/-- The `\s*(.+)` tail of the `Choice` pattern, applied to the input after
the `:`.  `\s*` is greedy and may cross newlines; `(.+)` then takes
everything up to the end of that line.  If only whitespace remains, greedy
backtracking leaves the last non-`'\n'` whitespace character as the
group; with no such character the match fails. -/
def groupAfterColon (rest : PyStr) : Option PyStr :=
  let t := rest.dropWhile pySpace
  if t.isEmpty then
    match (rest.filter (fun c => c != '\n')).getLast? with
    | some c => some [c]
    | none => none
  else some (t.takeWhile (fun c => c != '\n'))

/-- Try to match `Choice\s*:\s*(.+)` at the start of `cs`. -/
def tryChoiceAt (cs : PyStr) : Option PyStr :=
  match dropLiteral "Choice".toList cs with
  | none => none
  | some rest =>
    match rest.dropWhile pySpace with
    | ':' :: rest2 => groupAfterColon rest2
    | _ => none

/-- Model of `re.search(r'Choice\s*:\s*(.+)', raw)`: the group of the
leftmost match, scanning start positions left to right. -/
def choiceMarker : PyStr → Option PyStr
  | [] => none
  | c :: cs =>
    match tryChoiceAt (c :: cs) with
    | some g => some g
    | none => choiceMarker cs

/-! ## Python `repr`/`str` of strings, tuples and lists (for f-strings) -/

/-- Escaping of one character inside Python `repr` of a string with quote
character `q` (non-printable `\xNN` escapes beyond the common ones are
not needed by any claim and are left as the character itself). -/
def reprEsc (q c : Char) : PyStr :=
  if c = '\\' then ['\\', '\\']
  else if c = q then ['\\', q]
  else if c = '\n' then ['\\', 'n']
  else if c = '\r' then ['\\', 'r']
  else if c = '\t' then ['\\', 't']
  else [c]

/-- Python `repr` of a `str`: single-quoted, switching to double quotes
when the string contains a single quote but no double quote. -/
def pyStrRepr (s : PyStr) : PyStr :=
  let q := if s.contains sqc && !(s.contains '"') then '"' else sqc
  q :: (s.foldr (fun c acc => reprEsc q c ++ acc) [q])

/-- Python `str` of a tuple of strings, as interpolated by an f-string:
`()`, `('a',)`, or `('a', 'b', ...)`. -/
def pyTupleRepr (xs : List PyStr) : PyStr :=
  match xs with
  | [] => "()".toList
  | [x] => '(' :: (pyStrRepr x ++ [',', ')'])
  | _ => '(' :: (List.intercalate ", ".toList (xs.map pyStrRepr) ++ [')'])

/-- Python `str` of a list of strings, as interpolated by an f-string. -/
def pyListRepr (xs : List PyStr) : PyStr :=
  '[' :: (List.intercalate ", ".toList (xs.map pyStrRepr) ++ [']'])

/-- Python `str` of a non-negative `int` (decimal). -/
def natStr (n : Nat) : PyStr := (Nat.repr n).toList

/-! ## Cache keys, prompts, shared cache and the step functions -/

/-- The cache key built by `fetch_subtopics`:
`f"subtopics:{theme}:{count}"`. -/
def subtopicsKey (theme : PyStr) (count : Nat) : PyStr :=
  "subtopics:".toList ++ theme ++ ':' :: natStr count

/-- The cache key built by `choose_subtopic`:
`f"choice:{theme}:{tuple(subtopics)}"`. -/
def choiceKey (theme : PyStr) (subtopics : List PyStr) : PyStr :=
  "choice:".toList ++ theme ++ ':' :: pyTupleRepr subtopics

/-- The prompt built by `fetch_subtopics`. -/
def fetchPrompt (theme : PyStr) (count : Nat) : PyStr :=
  "Liste ".toList ++ natStr count ++ " subtemas relevantes sobre ".toList ++
    [sqc] ++ theme ++ [sqc] ++ ", voltados para jovens de 18-30 anos.".toList

/-- The prompt built by `choose_subtopic` (the theme is not part of it;
only the subtopic list is interpolated). -/
def choosePrompt (subtopics : List PyStr) : PyStr :=
  "Dentre estes subtemas: ".toList ++ pyListRepr subtopics ++
    ", escolha o mais relevante para um post no Instagram e explique por que.".toList

/-- The prompt built by `generate_caption`. -/
def captionPrompt (subtopic len formality : PyStr) : PyStr :=
  "Você é um Redator Criativo. Crie uma legenda para Instagram sobre ".toList ++
    [sqc] ++ subtopic ++ [sqc] ++ ", tamanho ".toList ++ len ++
    ", formalidade ".toList ++ formality ++
    ". Inclua um CTA claro, 2-4 hashtags e emojis.".toList

/-- The prompt built by `generate_image_prompt`. -/
def imagePromptFor (subtopic : PyStr) : PyStr :=
  "Você é Leonardo da Vinci moderno. Baseado no subtema ".toList ++
    [sqc] ++ subtopic ++ [sqc] ++
    ", retorne apenas um prompt detalhado para gerar uma imagem de post no Instagram.".toList

/-- Exceptions the embedded code can raise: a failure from the generation
backend, or the `IndexError` of `subtopics[0]` on an empty list. -/
inductive PyExn where
  | backendFailure : Nat → PyExn
  | indexError : PyExn
deriving DecidableEq

/-- The `{"choice": ..., "reason": ...}` dict built by `choose_subtopic`. -/
structure Selection where
  choice : Json
  reason : Json

/-- Values stored in the shared cache: subtopic lists (under
`subtopics:` keys) or selections (under `choice:` keys). -/
inductive CVal where
  | subs : List PyStr → CVal
  | sel : Selection → CVal

/-- The process-wide cache, `TTLCache(maxsize=100, ttl=600)`, modelled as
an association list: the claims operate within the TTL window and below
capacity, where neither expiry nor eviction acts. -/
abbrev Cache := List (PyStr × CVal)

/-- `key in cache` / `cache[key]`. -/
def cacheLookup (c : Cache) (k : PyStr) : Option CVal :=
  (c.find? (fun e => e.1 == k)).map (fun e => e.2)

/-- `cache[key] = v`: insert, replacing any previous entry for the key. -/
def cacheInsert (c : Cache) (k : PyStr) (v : CVal) : Cache :=
  (k, v) :: c.filter (fun e => !(e.1 == k))

/-- Read a cached value back as a subtopic list.  A `sel` value under a
`subtopics:` key is impossible (key prefixes never alias, see
`cache_keys_never_alias`), so that arm is arbitrary. -/
def asSubs : CVal → List PyStr
  | .subs l => l
  | .sel _ => []

/-- Read a cached value back as a selection (see `asSubs`). -/
def asSel : CVal → Selection
  | .sel s => s
  | .subs _ => ⟨Json.null, Json.null⟩

/-- The generation backend `client.models.generate_content(...).text`,
as a deterministic oracle from the prompt: it may raise, and its text
field may be absent (`none` models `resp.text is None`). -/
abbrev Backend := PyStr → Except PyExn (Option PyStr)

/-- One invocation of `fetch_subtopics(theme, count)` (the body the retry
decorator wraps): result, updated cache, and number of backend calls. -/
def fetch_subtopics (backend : Backend) (cache : Cache) (theme : PyStr) (count : Nat) :
    Except PyExn (List PyStr) × Cache × Nat :=
  let key := subtopicsKey theme count
  match cacheLookup cache key with
  | some v => (.ok (asSubs v), cache, 0)
  | none =>
    match backend (fetchPrompt theme count) with
    | .error e => (.error e, cache, 1)
    | .ok otext =>
      let text := otext.getD []
      let items := (parseSubtopics text).take count
      (.ok items, cacheInsert cache key (.subs items), 1)

/-- The structured-decode step of `choose_subtopic`'s `try` block:
`json.loads(raw)` followed by `doc["choice"]` and `doc["reason"]`.
`none` collects every way the `try` block can raise: a decode error, a
non-dict document (`TypeError`), or a missing key (`KeyError`). -/
def jsonChoiceReason (raw : PyStr) : Option (Json × Json) :=
  match pyJsonLoads raw with
  | some (Json.jobj kvs) =>
    match jobjGet kvs "choice".toList, jobjGet kvs "reason".toList with
    | some c, some r => some (c, r)
    | _, _ => none
  | _ => none

/-- The `except` branch of `choose_subtopic`: the `Choice:` marker, else
the first subtopic (`subtopics[0]` raises `IndexError` on an empty list,
inside the `except` block, and propagates). -/
def chooseFallback (raw : PyStr) (subtopics : List PyStr) : Except PyExn Selection :=
  match choiceMarker raw with
  | some g => .ok ⟨Json.jstr (pyStrip g), Json.jstr raw⟩
  | none =>
    match subtopics with
    | [] => .error PyExn.indexError
    | s :: _ => .ok ⟨Json.jstr s, Json.jstr raw⟩

/-- The parsing stage of `choose_subtopic`: the `try` block builds the
result from the structured decode; any failure in it enters the `except`
branch. -/
def chooseParse (raw : PyStr) (subtopics : List PyStr) : Except PyExn Selection :=
  match jsonChoiceReason raw with
  | some (c, r) => .ok ⟨c, r⟩
  | none => chooseFallback raw subtopics

/-- One invocation of `choose_subtopic(theme, subtopics)`. -/
def choose_subtopic (backend : Backend) (cache : Cache) (theme : PyStr)
    (subtopics : List PyStr) : Except PyExn Selection × Cache × Nat :=
  let key := choiceKey theme subtopics
  match cacheLookup cache key with
  | some v => (.ok (asSel v), cache, 0)
  | none =>
    match backend (choosePrompt subtopics) with
    | .error e => (.error e, cache, 1)
    | .ok otext =>
      match chooseParse (otext.getD []) subtopics with
      | .error e => (.error e, cache, 1)
      | .ok result => (.ok result, cacheInsert cache key (.sel result), 1)

/-- One invocation of `generate_caption(subtopic, length, formality)`
(uncached): result and number of backend calls. -/
def generate_caption (backend : Backend) (subtopic len formality : PyStr) :
    Except PyExn Json × Nat :=
  match backend (captionPrompt subtopic len formality) with
  | .error e => (.error e, 1)
  | .ok otext =>
    let raw := otext.getD []
    match pyJsonLoads raw with
    | some j => (.ok j, 1)
    | none => (.ok (Json.jobj [("caption".toList, Json.jstr raw)]), 1)

/-- One invocation of `generate_image_prompt(subtopic)` (uncached):
the raw backend text, with absent text as the empty string. -/
def generate_image_prompt (backend : Backend) (subtopic : PyStr) :
    Except PyExn PyStr × Nat :=
  match backend (imagePromptFor subtopic) with
  | .error e => (.error e, 1)
  | .ok otext => (.ok (otext.getD []), 1)

/-! ## Model of the retry decorator
`tenacity.retry(stop=stop_after_attempt(3),
wait=wait_exponential(multiplier=1, min=2, max=10),
retry=retry_if_exception_type(Exception), reraise=True)` -/

/-- `wait_exponential(multiplier=1, min=2, max=10)` after the failure of
attempt number `n` (1-based): `max(min, min(1 * 2^n, max))`. -/
def waitExp (n : Nat) : Nat := max 2 (min (2 ^ n) 10)

/-- The retry loop: run attempt `attempt` of `f`; on failure, if further
attempts remain, wait `waitExp attempt` and retry, else re-raise the last
failure (`reraise=True`).  Returns the final outcome, the number of
attempts made, and the list of waits performed. -/
def retryAux (f : Nat → Except ε α) (attempt : Nat) : Nat → Except ε α × Nat × List Nat
  | 0 =>
    match f attempt with
    | .ok a => (.ok a, 1, [])
    | .error e => (.error e, 1, [])
  | remaining + 1 =>
    match f attempt with
    | .ok a => (.ok a, 1, [])
    | .error _ =>
      let (res, n, ws) := retryAux f (attempt + 1) remaining
      (res, n + 1, waitExp attempt :: ws)

/-- The `retry_on_failure` decorator: up to 3 total attempts of the
wrapped invocation `f` (given as outcome per attempt number). -/
def retry_on_failure (f : Nat → Except ε α) : Except ε α × Nat × List Nat :=
  retryAux f 1 2

/-! ## Model of the Streamlit session state (pipeline controller) -/

/-- The per-session pipeline state held in `st.session_state`: each
downstream field is `none` while the key is absent. -/
structure SessionState where
  theme : Option PyStr
  subtopics : Option (List PyStr)
  chosen : Option Selection
  captionRes : Json
  imgPrompt : Option PyStr

/-- The theme step (tab 1): pressing `Próximo` with a non-blank input
stores the stripped theme; nothing else in the session state is
touched. -/
def themeStep (s : SessionState) (themeInput : PyStr) (pressed : Bool) : SessionState :=
  if pressed then
    if (pyStrip themeInput).isEmpty then s
    else { s with theme := some (pyStrip themeInput) }
  else s

/-- The subtopics step (tab 2): memoized on key presence — it only calls
`fetch_subtopics` when the `subtopics` key is absent; with no theme the
script stops (`st.stop()`).  Returns the new state, the cache, and the
number of backend calls made. -/
def subtopicsStep (backend : Backend) (cache : Cache) (s : SessionState) (numSubs : Nat) :
    SessionState × Cache × Nat :=
  match s.theme with
  | none => (s, cache, 0)
  | some t =>
    match s.subtopics with
    | some _ => (s, cache, 0)
    | none =>
      match fetch_subtopics backend cache t numSubs with
      | (.ok v, c2, n) => ({ s with subtopics := some v }, c2, n)
      | (.error _, c2, n) => (s, c2, n)

/-- The choice step (tab 3): memoized on key presence like the subtopics
step. -/
def chosenStep (backend : Backend) (cache : Cache) (s : SessionState) : SessionState × Cache × Nat :=
  match s.theme, s.subtopics with
  | some t, some subs =>
    (match s.chosen with
     | some _ => (s, cache, 0)
     | none =>
       match choose_subtopic backend cache t subs with
       | (.ok sel, c2, n) => ({ s with chosen := some sel }, c2, n)
       | (.error _, c2, n) => (s, c2, n))
  | _, _ => (s, cache, 0)

/-! ## Helper lemmas -/

/-- Splitting at a separator that the two tails avoid is unambiguous. -/
theorem colon_split : ∀ (t1 t2 a b : PyStr), ':' ∉ a → ':' ∉ b →
    t1 ++ ':' :: a = t2 ++ ':' :: b → t1 = t2 ∧ a = b := by
  intro t1
  induction t1 with
  | nil =>
    intro t2 a b ha hb h
    cases t2 with
    | nil =>
      simp only [List.nil_append, List.cons.injEq] at h
      exact ⟨rfl, h.2⟩
    | cons d t2' =>
      simp only [List.nil_append, List.cons_append, List.cons.injEq] at h
      exact absurd (h.2 ▸ List.mem_append_right t2' (List.mem_cons_self ':' b)) ha
  | cons c t1' ih =>
    intro t2 a b ha hb h
    cases t2 with
    | nil =>
      simp only [List.nil_append, List.cons_append, List.cons.injEq] at h
      exact absurd (h.2.symm ▸ List.mem_append_right t1' (List.mem_cons_self ':' a)) hb
    | cons d t2' =>
      simp only [List.cons_append, List.cons.injEq] at h
      obtain ⟨h1, h2⟩ := ih t2' a b ha hb h.2
      exact ⟨by rw [h.1, h1], h2⟩

/-- Decimal digit strings of the valid subtopic counts contain no colon. -/
theorem natStr_no_colon (c : Nat) (h3 : 3 ≤ c) (h10 : c ≤ 10) : ':' ∉ natStr c := by
  interval_cases c <;> decide

/-- Decimal representation is injective on the valid subtopic counts. -/
theorem natStr_inj_range (c1 c2 : Nat) (ha : 3 ≤ c1) (hb : c1 ≤ 10) (hc : 3 ≤ c2)
    (hd : c2 ≤ 10) : natStr c1 = natStr c2 → c1 = c2 := by
  interval_cases c1 <;> interval_cases c2 <;> decide

/-- Reading back the entry just inserted. -/
theorem cacheLookup_insert (c : Cache) (k : PyStr) (v : CVal) :
    cacheLookup (cacheInsert c k v) k = some v := by
  simp [cacheLookup, cacheInsert, List.find?]

/-- C1: if the wrapped invocation fails on every attempt, the retry
wrapper makes exactly 3 invocations, the two waits between attempts are 2
then 4 time-units (total 6, each within the 2..10 bounds), and the last
failure is re-raised unchanged; moreover each such invocation of
`fetch_subtopics` on an uncached key with a failing backend makes exactly
one backend call and surfaces the backend's failure. -/
theorem retry_exhausts_three_attempts :
    (∀ (ε α : Type) (f : Nat → Except ε α), (∀ i, ∃ e, f i = Except.error e) →
      (retry_on_failure f).2.1 = 3 ∧
      (retry_on_failure f).2.2 = [2, 4] ∧
      (retry_on_failure f).2.2.sum = 6 ∧
      (∀ w ∈ (retry_on_failure f).2.2, 2 ≤ w ∧ w ≤ 10) ∧
      (retry_on_failure f).1 = f 3) ∧
    (∀ (backend : Backend) (cache : Cache) (theme : PyStr) (count : Nat) (e : PyExn),
      cacheLookup cache (subtopicsKey theme count) = none →
      backend (fetchPrompt theme count) = Except.error e →
      fetch_subtopics backend cache theme count = (Except.error e, cache, 1)) := by
  constructor
  · intro ε α f h
    obtain ⟨e1, h1⟩ := h 1
    obtain ⟨e2, h2⟩ := h 2
    obtain ⟨e3, h3⟩ := h 3
    have hrun : retry_on_failure f = (Except.error e3, 3, [2, 4]) := by
      simp [retry_on_failure, retryAux, h1, h2, h3, waitExp]
    rw [h3]
    simp [hrun]
  · intro backend cache theme count e hlook hbk
    simp [fetch_subtopics, hlook, hbk]

/-- C1 witness: a concrete always-failing invocation. -/
theorem retry_exhausts_three_attempts_witness :
    (retry_on_failure (fun i => (Except.error i : Except Nat Nat))).2.1 = 3 ∧
    (retry_on_failure (fun i => (Except.error i : Except Nat Nat))).2.2 = [2, 4] ∧
    fetch_subtopics (fun _ => Except.error (PyExn.backendFailure 0)) [] "tema".toList 5 =
      (Except.error (PyExn.backendFailure 0), [], 1) := by
  refine ⟨(retry_exhausts_three_attempts.1 Nat Nat _ (fun i => ⟨i, rfl⟩)).1,
          (retry_exhausts_three_attempts.1 Nat Nat _ (fun i => ⟨i, rfl⟩)).2.1,
          retry_exhausts_three_attempts.2 _ [] "tema".toList 5 (PyExn.backendFailure 0) rfl rfl⟩

/-- C10: `subtopics:` cache keys are injective over (theme, count) for
counts in the valid 3..10 range, and no `subtopics:` key ever equals a
`choice:` key, so a cache hit always delivers a value computed by the
same step from the same inputs. -/
theorem cache_keys_never_alias :
    (∀ (t1 t2 : PyStr) (c1 c2 : Nat), 3 ≤ c1 → c1 ≤ 10 → 3 ≤ c2 → c2 ≤ 10 →
      subtopicsKey t1 c1 = subtopicsKey t2 c2 → t1 = t2 ∧ c1 = c2) ∧
    (∀ (t t2 : PyStr) (c : Nat) (subs : List PyStr),
      subtopicsKey t c ≠ choiceKey t2 subs) := by
  constructor
  · intro t1 t2 c1 c2 ha hb hc hd h
    unfold subtopicsKey at h
    rw [List.append_assoc, List.append_assoc] at h
    have h2 := List.append_cancel_left h
    obtain ⟨ht, hn⟩ :=
      colon_split t1 t2 (natStr c1) (natStr c2) (natStr_no_colon c1 ha hb)
        (natStr_no_colon c2 hc hd) h2
    exact ⟨ht, natStr_inj_range c1 c2 ha hb hc hd hn⟩
  · intro t t2 c subs h
    have h1 : (subtopicsKey t c).head? = some 's' := rfl
    have h2 : (choiceKey t2 subs).head? = some 'c' := rfl
    rw [h, h2] at h1
    exact absurd (Option.some.inj h1) (by decide)

/-- C10 witness: concrete keys at the range bounds. -/
theorem cache_keys_never_alias_witness :
    ("tema".toList = "tema".toList ∧ (10 : Nat) = 10) ∧
    subtopicsKey "tema".toList 3 ≠ choiceKey "tema".toList ["a".toList] := by
  exact ⟨cache_keys_never_alias.1 "tema".toList "tema".toList 10 10 (by decide) (by decide)
          (by decide) (by decide) rfl,
        cache_keys_never_alias.2 "tema".toList "tema".toList 3 ["a".toList]⟩

/-- C2: two invocations of `fetch_subtopics` with the same
`(theme, count)` within the TTL window (modelled by a cache without
expiry), starting from a cache with no entry for the key and a succeeding
backend, make exactly one backend call in total, and the second result
equals the first. -/
theorem fetch_subtopics_cache_idempotent
    (backend : Backend) (cache : Cache) (theme : PyStr) (count : Nat) (otext : Option PyStr)
    (hmiss : cacheLookup cache (subtopicsKey theme count) = none)
    (hok : backend (fetchPrompt theme count) = Except.ok otext) :
    (fetch_subtopics backend cache theme count).2.2 +
      (fetch_subtopics backend (fetch_subtopics backend cache theme count).2.1
        theme count).2.2 = 1 ∧
    (fetch_subtopics backend (fetch_subtopics backend cache theme count).2.1 theme count).1 =
      (fetch_subtopics backend cache theme count).1 := by
  have h1 : fetch_subtopics backend cache theme count =
      (Except.ok ((parseSubtopics (otext.getD [])).take count),
       cacheInsert cache (subtopicsKey theme count)
         (CVal.subs ((parseSubtopics (otext.getD [])).take count)), 1) := by
    simp [fetch_subtopics, hmiss, hok]
  rw [h1]
  simp [fetch_subtopics, cacheLookup_insert, asSubs]

/-- C2 witness: a concrete backend and theme. -/
theorem fetch_subtopics_cache_idempotent_witness :
    (fetch_subtopics (fun _ => Except.ok (some "1. solar".toList)) [] "tema".toList 5).2.2 +
      (fetch_subtopics (fun _ => Except.ok (some "1. solar".toList))
        (fetch_subtopics (fun _ => Except.ok (some "1. solar".toList)) [] "tema".toList 5).2.1
        "tema".toList 5).2.2 = 1 ∧
    (fetch_subtopics (fun _ => Except.ok (some "1. solar".toList))
        (fetch_subtopics (fun _ => Except.ok (some "1. solar".toList)) [] "tema".toList 5).2.1
        "tema".toList 5).1 =
      (fetch_subtopics (fun _ => Except.ok (some "1. solar".toList)) [] "tema".toList 5).1 :=
  fetch_subtopics_cache_idempotent _ [] "tema".toList 5 (some "1. solar".toList) rfl rfl

/-- C8: when the backend call of a cached step raises, the shared cache
is left unchanged (the failure is surfaced, no entry is inserted for the
key), and a subsequent identical call invokes the backend again. -/
theorem failures_never_cached :
    (∀ (backend : Backend) (cache : Cache) (theme : PyStr) (count : Nat) (e : PyExn),
      cacheLookup cache (subtopicsKey theme count) = none →
      backend (fetchPrompt theme count) = Except.error e →
      fetch_subtopics backend cache theme count = (Except.error e, cache, 1) ∧
      (fetch_subtopics backend (fetch_subtopics backend cache theme count).2.1
        theme count).2.2 = 1) ∧
    (∀ (backend : Backend) (cache : Cache) (theme : PyStr) (subs : List PyStr) (e : PyExn),
      cacheLookup cache (choiceKey theme subs) = none →
      backend (choosePrompt subs) = Except.error e →
      choose_subtopic backend cache theme subs = (Except.error e, cache, 1) ∧
      (choose_subtopic backend (choose_subtopic backend cache theme subs).2.1
        theme subs).2.2 = 1) := by
  constructor
  · intro backend cache theme count e hmiss herr
    have h1 : fetch_subtopics backend cache theme count = (Except.error e, cache, 1) := by
      simp [fetch_subtopics, hmiss, herr]
    refine ⟨h1, ?_⟩
    rw [h1]
    simp [fetch_subtopics, hmiss, herr]
  · intro backend cache theme subs e hmiss herr
    have h1 : choose_subtopic backend cache theme subs = (Except.error e, cache, 1) := by
      simp [choose_subtopic, hmiss, herr]
    refine ⟨h1, ?_⟩
    rw [h1]
    simp [choose_subtopic, hmiss, herr]

/-- C8 witness: a concrete always-failing backend on both cached steps. -/
theorem failures_never_cached_witness :
    fetch_subtopics (fun _ => Except.error (PyExn.backendFailure 7)) [] "tema".toList 4 =
      (Except.error (PyExn.backendFailure 7), [], 1) ∧
    choose_subtopic (fun _ => Except.error (PyExn.backendFailure 7)) [] "tema".toList
        ["a".toList] =
      (Except.error (PyExn.backendFailure 7), [], 1) :=
  ⟨(failures_never_cached.1 _ [] "tema".toList 4 (PyExn.backendFailure 7) rfl rfl).1,
   (failures_never_cached.2 _ [] "tema".toList ["a".toList] (PyExn.backendFailure 7) rfl rfl).1⟩

/-- A line consisting only of whitespace carries no marker. -/
theorem stripMarker_of_ws (ℓ : PyStr) (h : (ℓ.dropWhile pySpace).isEmpty = true) :
    stripMarker ℓ = none := by
  have h2 : ℓ.dropWhile pySpace = [] := by simpa using h
  simp [stripMarker, h2]

/-- Each well-formed bullet line yields at least one regex group: the
scanner emits a group for every such line, in whichever mode it reaches
it. -/
theorem wellFormed_le_scanLines (ls : List PyStr) :
    ∀ m, (ls.filter wellFormedBullet).length ≤ (scanLines ls m).length := by
  induction ls with
  | nil =>
    intro m
    match m with
    | .scan => simp [scanLines]
    | .afterMarker none => simp [scanLines]
    | .afterMarker (some c) => simp [scanLines]
  | cons ℓ rest ih =>
    intro m
    match m with
    | .scan =>
      cases hsm : stripMarker ℓ with
      | none =>
        have hwf : wellFormedBullet ℓ = false := by simp [wellFormedBullet, hsm]
        simp only [scanLines, hsm, List.filter_cons, hwf, Bool.false_eq_true, if_false]
        exact ih .scan
      | some s =>
        cases hte : (s.dropWhile pySpace).isEmpty with
        | true =>
          have hwf : wellFormedBullet ℓ = false := by simp [wellFormedBullet, hsm, hte]
          simp only [scanLines, hsm, hte, List.filter_cons, hwf, Bool.false_eq_true,
            if_false, if_true]
          exact ih _
        | false =>
          have hwf : wellFormedBullet ℓ = true := by simp [wellFormedBullet, hsm, hte]
          simp only [scanLines, hsm, hte, List.filter_cons, hwf, Bool.false_eq_true,
            if_false, if_true, List.length_cons]
          exact Nat.succ_le_succ (ih .scan)
    | .afterMarker lw =>
      cases hte : (ℓ.dropWhile pySpace).isEmpty with
      | true =>
        have hwf : wellFormedBullet ℓ = false := by
          simp [wellFormedBullet, stripMarker_of_ws ℓ hte]
        simp only [scanLines, hte, List.filter_cons, hwf, Bool.false_eq_true, if_false, if_true]
        exact ih _
      | false =>
        simp only [scanLines, hte, Bool.false_eq_true, if_false, List.length_cons,
          List.filter_cons]
        cases hwf : wellFormedBullet ℓ with
        | true =>
          simp only [if_true, List.length_cons]
          exact Nat.succ_le_succ (ih .scan)
        | false =>
          simp only [Bool.false_eq_true, if_false]
          exact Nat.le_succ_of_le (ih .scan)

/-- C3: the parsed subtopic list has length at most `count`; whenever the
backend text has at least `count` well-formed bullet lines the result is
exactly the first `count` regex groups, in source order, of length
exactly `count`; with zero regex matches the fallback takes the stripped
lines longer than 5 characters; and a `fetch_subtopics` invocation with a
cache miss and a succeeding backend returns exactly this parse. -/
theorem fetch_subtopics_parse_spec (text : PyStr) (count : Nat)
    (h3 : 3 ≤ count) (h10 : count ≤ 10) :
    ((parseSubtopics text).take count).length ≤ count ∧
    (count ≤ ((splitOnNl text).filter wellFormedBullet).length →
      (parseSubtopics text).take count = (findallBullets text).take count ∧
      ((parseSubtopics text).take count).length = count) ∧
    (findallBullets text = [] →
      (parseSubtopics text).take count =
        (((pySplitlines text).map pyStrip).filter (fun l => 5 < l.length)).take count) ∧
    (∀ (backend : Backend) (cache : Cache) (theme : PyStr),
      cacheLookup cache (subtopicsKey theme count) = none →
      backend (fetchPrompt theme count) = Except.ok (some text) →
      (fetch_subtopics backend cache theme count).1 =
        Except.ok ((parseSubtopics text).take count)) := by
  refine ⟨List.length_take_le count _, ?_, ?_, ?_⟩
  · intro hcount
    have hfind : count ≤ (findallBullets text).length :=
      le_trans hcount (wellFormed_le_scanLines (splitOnNl text) .scan)
    have hne : (findallBullets text).isEmpty = false := by
      cases hfa : findallBullets text with
      | nil => rw [hfa] at hfind; simp at hfind; omega
      | cons a l => simp
    have hps : parseSubtopics text = findallBullets text := by
      simp [parseSubtopics, hne]
    refine ⟨by rw [hps], ?_⟩
    rw [hps, List.length_take]
    omega
  · intro hfa
    simp [parseSubtopics, hfa]
  · intro backend cache theme hmiss hok
    simp [fetch_subtopics, hmiss, hok]

/-- C3 witness: five numbered lines, count 5. -/
theorem fetch_subtopics_parse_spec_witness :
    ((parseSubtopics "1. a\n2. b\n3. c\n4. d\n5. e".toList).take 5).length ≤ 5 ∧
    ((parseSubtopics "1. a\n2. b\n3. c\n4. d\n5. e".toList).take 5).length = 5 ∧
    (fetch_subtopics (fun _ => Except.ok (some "1. a\n2. b\n3. c\n4. d\n5. e".toList))
      [] "tema".toList 5).1 =
      Except.ok ((parseSubtopics "1. a\n2. b\n3. c\n4. d\n5. e".toList).take 5) := by
  have h := fetch_subtopics_parse_spec "1. a\n2. b\n3. c\n4. d\n5. e".toList 5
    (by decide) (by decide)
  exact ⟨h.1, (h.2.1 (by decide)).2, h.2.2.2 _ [] "tema".toList rfl rfl⟩

/-- C4: with a cache miss and a succeeding backend, `choose_subtopic`
follows the fixed fallback order: structured decode with `choice` and
`reason` fields; else the `Choice:` marker value (stripped) with the
entire raw response as reason; else the first input subtopic with the
entire raw response as reason. -/
theorem choose_subtopic_fallback_order
    (backend : Backend) (cache : Cache) (theme : PyStr) (s : PyStr) (ss : List PyStr)
    (otext : Option PyStr)
    (hmiss : cacheLookup cache (choiceKey theme (s :: ss)) = none)
    (hok : backend (choosePrompt (s :: ss)) = Except.ok otext) :
    (∀ c r, jsonChoiceReason (otext.getD []) = some (c, r) →
      (choose_subtopic backend cache theme (s :: ss)).1 = Except.ok ⟨c, r⟩) ∧
    (jsonChoiceReason (otext.getD []) = none →
      ∀ g, choiceMarker (otext.getD []) = some g →
        (choose_subtopic backend cache theme (s :: ss)).1 =
          Except.ok ⟨Json.jstr (pyStrip g), Json.jstr (otext.getD [])⟩) ∧
    (jsonChoiceReason (otext.getD []) = none → choiceMarker (otext.getD []) = none →
      (choose_subtopic backend cache theme (s :: ss)).1 =
        Except.ok ⟨Json.jstr s, Json.jstr (otext.getD [])⟩) := by
  refine ⟨?_, ?_, ?_⟩
  · intro c r hj
    simp [choose_subtopic, hmiss, hok, chooseParse, hj]
  · intro hj g hg
    simp [choose_subtopic, hmiss, hok, chooseParse, chooseFallback, hj, hg]
  · intro hj hg
    simp [choose_subtopic, hmiss, hok, chooseParse, chooseFallback, hj, hg]

/-- C4 witness: the specification's own scenario — `Choice: Topic B`
inside non-structured text, subtopics `["Topic A", "Topic B", "Topic C"]`. -/
theorem choose_subtopic_fallback_order_witness :
    (choose_subtopic (fun _ => Except.ok (some "texto livre\nChoice: Topic B".toList)) []
      "tema".toList ["Topic A".toList, "Topic B".toList, "Topic C".toList]).1 =
      Except.ok ⟨Json.jstr "Topic B".toList,
        Json.jstr "texto livre\nChoice: Topic B".toList⟩ := by
  exact (choose_subtopic_fallback_order
    (fun _ => Except.ok (some "texto livre\nChoice: Topic B".toList)) []
    "tema".toList "Topic A".toList ["Topic B".toList, "Topic C".toList]
    (some "texto livre\nChoice: Topic B".toList) rfl rfl).2.1 rfl "Topic B".toList rfl

/-- C5 counterexample: with backend text `Choice: Banana` and input
subtopics `["Topic A"]`, the returned `choice` is `Banana`, which is not
one of the input subtopics — the claimed invariant fails on the marker
path. -/
theorem choice_in_subtopics_counterexample :
    (choose_subtopic (fun _ => Except.ok (some "Choice: Banana".toList)) [] "tema".toList
      ["Topic A".toList]).1 =
      Except.ok ⟨Json.jstr "Banana".toList, Json.jstr "Choice: Banana".toList⟩ ∧
    Json.jstr "Banana".toList ∉ (["Topic A".toList].map Json.jstr) := by
  constructor
  · rfl
  · intro hmem
    simp only [List.map, List.mem_singleton] at hmem
    exact absurd (Json.jstr.inj hmem) (by decide)

/-- C5 (amended): the `choice` is guaranteed to be one of the input
subtopics only on the total-fallback path — when the backend response
neither decodes with `choice`/`reason` fields nor contains a `Choice:`
marker, the choice is the first input subtopic; on the structured and
marker paths the backend-provided value is accepted unvalidated. -/
theorem choice_in_subtopics_default_path
    (backend : Backend) (cache : Cache) (theme : PyStr) (s : PyStr) (ss : List PyStr)
    (otext : Option PyStr)
    (hmiss : cacheLookup cache (choiceKey theme (s :: ss)) = none)
    (hok : backend (choosePrompt (s :: ss)) = Except.ok otext)
    (hjson : jsonChoiceReason (otext.getD []) = none)
    (hmark : choiceMarker (otext.getD []) = none) :
    ∃ sel, (choose_subtopic backend cache theme (s :: ss)).1 = Except.ok sel ∧
      sel.choice = Json.jstr s ∧ sel.choice ∈ ((s :: ss).map Json.jstr) := by
  refine ⟨⟨Json.jstr s, Json.jstr (otext.getD [])⟩, ?_, rfl, by simp⟩
  simp [choose_subtopic, hmiss, hok, chooseParse, chooseFallback, hjson, hmark]

/-- C5 amended witness: markerless, structureless backend text. -/
theorem choice_in_subtopics_default_path_witness :
    ∃ sel, (choose_subtopic (fun _ => Except.ok (some "resposta livre".toList)) []
      "tema".toList ["Topic A".toList]).1 = Except.ok sel ∧
      sel.choice = Json.jstr "Topic A".toList ∧
      sel.choice ∈ (["Topic A".toList].map Json.jstr) :=
  choice_in_subtopics_default_path (fun _ => Except.ok (some "resposta livre".toList)) []
    "tema".toList "Topic A".toList [] (some "resposta livre".toList) rfl rfl rfl rfl

/-- The parse stage of `choose_subtopic` cannot raise when the subtopic
list is non-empty. -/
theorem chooseParse_ok (raw : PyStr) (s : PyStr) (ss : List PyStr) :
    ∃ sel, chooseParse raw (s :: ss) = Except.ok sel := by
  cases hj : jsonChoiceReason raw with
  | some cr =>
    obtain ⟨c, r⟩ := cr
    exact ⟨⟨c, r⟩, by simp [chooseParse, hj]⟩
  | none =>
    cases hg : choiceMarker raw with
    | some g => exact ⟨⟨Json.jstr (pyStrip g), Json.jstr raw⟩,
        by simp [chooseParse, chooseFallback, hj, hg]⟩
    | none => exact ⟨⟨Json.jstr s, Json.jstr raw⟩,
        by simp [chooseParse, chooseFallback, hj, hg]⟩

/-- C7 counterexample: with an empty subtopic list and a backend response
that neither decodes nor contains a `Choice:` marker, the fallback itself
raises (`subtopics[0]` → `IndexError`), so a parse failure does escape to
the caller even though the backend call succeeded. -/
theorem parse_failure_escapes_counterexample :
    (choose_subtopic (fun _ => Except.ok (some "resposta sem estrutura".toList)) []
      "tema".toList []).1 = Except.error PyExn.indexError := by
  rfl

/-- C7 (amended): a parse failure is always recovered locally provided
the subtopic list is non-empty — `choose_subtopic` returns a (possibly
degraded) result whenever its backend call succeeds and the list has a
first element, and `generate_caption` does so unconditionally. -/
theorem parse_failure_recovered :
    (∀ (backend : Backend) (cache : Cache) (theme : PyStr) (s : PyStr) (ss : List PyStr)
       (otext : Option PyStr),
      backend (choosePrompt (s :: ss)) = Except.ok otext →
      ∃ sel, (choose_subtopic backend cache theme (s :: ss)).1 = Except.ok sel) ∧
    (∀ (backend : Backend) (subtopic len formality : PyStr) (otext : Option PyStr),
      backend (captionPrompt subtopic len formality) = Except.ok otext →
      ∃ j, (generate_caption backend subtopic len formality).1 = Except.ok j) := by
  constructor
  · intro backend cache theme s ss otext hok
    cases hc : cacheLookup cache (choiceKey theme (s :: ss)) with
    | some v => exact ⟨asSel v, by simp [choose_subtopic, hc]⟩
    | none =>
      obtain ⟨sel, hsel⟩ := chooseParse_ok (otext.getD []) s ss
      exact ⟨sel, by simp [choose_subtopic, hc, hok, hsel]⟩
  · intro backend subtopic len formality otext hok
    cases hj : pyJsonLoads (otext.getD []) with
    | some j => exact ⟨j, by simp [generate_caption, hok, hj]⟩
    | none =>
      exact ⟨Json.jobj [("caption".toList, Json.jstr (otext.getD []))],
        by simp [generate_caption, hok, hj]⟩

/-- C7 amended witness: unparseable text, non-empty subtopics; and a
caption call on unparseable text. -/
theorem parse_failure_recovered_witness :
    (∃ sel, (choose_subtopic (fun _ => Except.ok (some "sem estrutura".toList)) []
      "tema".toList ["Topic A".toList]).1 = Except.ok sel) ∧
    (∃ j, (generate_caption (fun _ => Except.ok (some "sem estrutura".toList))
      "sub".toList "Curta".toList "Baixa".toList).1 = Except.ok j) :=
  ⟨parse_failure_recovered.1 _ [] "tema".toList "Topic A".toList [] _ rfl,
   parse_failure_recovered.2 _ "sub".toList "Curta".toList "Baixa".toList _ rfl⟩

/-- C9: a successful backend call whose text field is absent is treated
as the empty string, not as a failure: `generate_image_prompt` returns
`""`, `fetch_subtopics` returns the empty list, and `choose_subtopic`
(with a non-empty subtopic list) and `generate_caption` apply their
normal parse fallbacks to `""` without raising. -/
theorem empty_text_treated_as_empty :
    (∀ (backend : Backend) (subtopic : PyStr),
      backend (imagePromptFor subtopic) = Except.ok none →
      generate_image_prompt backend subtopic = (Except.ok [], 1)) ∧
    (∀ (backend : Backend) (cache : Cache) (theme : PyStr) (count : Nat),
      cacheLookup cache (subtopicsKey theme count) = none →
      backend (fetchPrompt theme count) = Except.ok none →
      (fetch_subtopics backend cache theme count).1 = Except.ok []) ∧
    (∀ (backend : Backend) (cache : Cache) (theme : PyStr) (s : PyStr) (ss : List PyStr),
      cacheLookup cache (choiceKey theme (s :: ss)) = none →
      backend (choosePrompt (s :: ss)) = Except.ok none →
      (choose_subtopic backend cache theme (s :: ss)).1 =
        Except.ok ⟨Json.jstr s, Json.jstr []⟩) ∧
    (∀ (backend : Backend) (subtopic len formality : PyStr),
      backend (captionPrompt subtopic len formality) = Except.ok none →
      (generate_caption backend subtopic len formality).1 =
        Except.ok (Json.jobj [("caption".toList, Json.jstr [])])) := by
  refine ⟨?_, ?_, ?_, ?_⟩
  · intro backend subtopic hok
    simp [generate_image_prompt, hok]
  · intro backend cache theme count hmiss hok
    have hp : parseSubtopics ([] : PyStr) = [] := rfl
    simp [fetch_subtopics, hmiss, hok, hp]
  · intro backend cache theme s ss hmiss hok
    have hj : jsonChoiceReason [] = none := rfl
    have hg : choiceMarker [] = none := rfl
    simp [choose_subtopic, hmiss, hok, chooseParse, chooseFallback, hj, hg]
  · intro backend subtopic len formality hok
    have hj : pyJsonLoads [] = none := rfl
    simp [generate_caption, hok, hj]

/-- C9 witness: a backend whose text field is absent, on every step. -/
theorem empty_text_treated_as_empty_witness :
    generate_image_prompt (fun _ => Except.ok none) "sub".toList = (Except.ok [], 1) ∧
    (fetch_subtopics (fun _ => Except.ok none) [] "tema".toList 5).1 = Except.ok [] ∧
    (choose_subtopic (fun _ => Except.ok none) [] "tema".toList ["Topic A".toList]).1 =
      Except.ok ⟨Json.jstr "Topic A".toList, Json.jstr []⟩ ∧
    (generate_caption (fun _ => Except.ok none) "sub".toList "Curta".toList
      "Baixa".toList).1 = Except.ok (Json.jobj [("caption".toList, Json.jstr [])]) :=
  ⟨empty_text_treated_as_empty.1 _ "sub".toList rfl,
   empty_text_treated_as_empty.2.1 _ [] "tema".toList 5 rfl rfl,
   empty_text_treated_as_empty.2.2.1 _ [] "tema".toList "Topic A".toList [] rfl rfl,
   empty_text_treated_as_empty.2.2.2 _ "sub".toList "Curta".toList "Baixa".toList rfl⟩

/-- A session that has already computed subtopics, a selection, a caption
and an image prompt for the theme `sustentabilidade`. -/
def staleDemoState : SessionState :=
  { theme := some "sustentabilidade".toList,
    subtopics := some ["energia solar".toList, "reciclagem".toList],
    chosen := some ⟨Json.jstr "energia solar".toList, Json.jstr "motivo".toList⟩,
    captionRes := Json.jobj [("caption".toList, Json.jstr "legenda antiga".toList)],
    imgPrompt := some "prompt antigo".toList }

/-- C6 (the code keeps stale state; the specification flags this as a
latent bug): submitting the new theme `futebol` over `staleDemoState`
updates only `theme` — the subtopics, selection, caption and image
prompt computed for `sustentabilidade` all survive, and the memoized
subtopics and choice steps then skip recomputation (0 backend calls), so
downstream values from the previous theme are served for the new one. -/
theorem theme_change_keeps_stale_downstream :
    (themeStep staleDemoState "futebol".toList true).theme = some "futebol".toList ∧
    (themeStep staleDemoState "futebol".toList true).subtopics = staleDemoState.subtopics ∧
    (themeStep staleDemoState "futebol".toList true).chosen = staleDemoState.chosen ∧
    (themeStep staleDemoState "futebol".toList true).captionRes = staleDemoState.captionRes ∧
    (themeStep staleDemoState "futebol".toList true).imgPrompt = staleDemoState.imgPrompt ∧
    (subtopicsStep (fun _ => Except.ok (some "1. escalações\n2. táticas".toList)) []
      (themeStep staleDemoState "futebol".toList true) 5).1.subtopics =
      some ["energia solar".toList, "reciclagem".toList] ∧
    (subtopicsStep (fun _ => Except.ok (some "1. escalações\n2. táticas".toList)) []
      (themeStep staleDemoState "futebol".toList true) 5).2.2 = 0 ∧
    (chosenStep (fun _ => Except.ok (some "resposta".toList)) []
      (themeStep staleDemoState "futebol".toList true)).1.chosen =
      staleDemoState.chosen ∧
    (chosenStep (fun _ => Except.ok (some "resposta".toList)) []
      (themeStep staleDemoState "futebol".toList true)).2.2 = 0 := by
  exact ⟨rfl, rfl, rfl, rfl, rfl, rfl, rfl, rfl, rfl⟩

/-- C9 counterexample: with an absent text field and an empty subtopic
list, `choose_subtopic` raises (`IndexError` from the fallback) instead
of returning a degraded result, so the claim does not hold for every
input. -/
theorem empty_text_counterexample :
    (choose_subtopic (fun _ => Except.ok none) [] "tema".toList []).1 =
      Except.error PyExn.indexError := by
  rfl
